import Mathlib

/-
Verification model of the 8086 MOV disassembler (src/src/bin/homework_one.rs).

The Rust program reads a file of raw bytes and prints one assembly line per
decoded MOV instruction.  We embed it shallowly: the byte stream becomes a
`List Nat` of byte values (each in [0, 256)), every Rust function that pulls
bytes from the iterator becomes a Lean function that returns the decoded text
together with the unconsumed suffix of the list, and every abnormal
termination of the Rust code (a failed `unwrap` on a missing byte, a `todo`
branch, or an explicit runtime abort) becomes `none` / `Outcome.aborted`.

Machine integers are modelled as follows.  Rust `u8` values are `Nat`s below
256.  Rust `i16` values are carried as their 16-bit twos-complement bit
pattern (a `Nat` below 65536); `i16val` converts a pattern to the signed
value that Rust prints.  Rust `as` casts between the integer types are made
explicit: `u8 as i16` keeps the pattern (zero extension), `u8 as i8 as i16`
sign-extends (`signExt8`).  The left shift on `i16` discards overflowing
bits in Rust, hence the `% 65536` in `combine16`.  Unary minus on `i8`/`i16`
overflows at the minimum value; `neg8`/`neg16` model the wrapping result of
a release build (a debug build aborts at that point instead).
-/

namespace HW1

/-- Bit masks of byte 1, as in the Rust source. -/
def OPCODE : Nat := 0xFC

/-- Direction bit mask of byte 1. -/
def DBIT : Nat := 0x02

/-- Width bit mask of byte 1. -/
def WBIT : Nat := 0x01

/-- Mode mask of byte 2. -/
def MOD : Nat := 0xC0

/-- Register-field mask of byte 2. -/
def REG : Nat := 0x38

/-- Register-or-memory mask of byte 2. -/
def R_M : Nat := 0x07

/-- Interpretation of a 16-bit pattern as the signed value Rust prints for an i16. -/
def i16val (n : Nat) : Int := if n < 32768 then (n : Int) else (n : Int) - 65536

/-- Interpretation of a byte as the signed value of a Rust i8 (the cast u8 as i8). -/
def i8val (b : Nat) : Int := if b < 128 then (b : Int) else (b : Int) - 256

/-- Bit pattern of the cast u8 as i8 as i16: sign extension of a byte to 16 bits. -/
def signExt8 (b : Nat) : Nat := if b < 128 then b else b + 0xFF00

/-- Bit pattern of the Rust expression (hi << 8) | lo on i16 patterns.  The
    shift discards bits above bit 15, which the reduction modulo 65536 models. -/
def combine16 (hi lo : Nat) : Nat := Nat.lor ((hi <<< 8) % 65536) lo

/-- Rust unary minus on an i8 value, wrapping at the minimum (release build). -/
def neg8 (d : Int) : Int := if d = -128 then -128 else -d

/-- Rust unary minus on an i16 value, wrapping at the minimum (release build). -/
def neg16 (d : Int) : Int := if d = -32768 then -32768 else -d

/-- Register name table, from get_reg in the source.  The catch-all case is
    unreachable in the Rust code because every argument is masked to 3 bits. -/
def get_reg (reg : Nat) (is_word : Bool) : String :=
  if is_word then
    match reg with
    | 0 => "AX"
    | 1 => "CX"
    | 2 => "DX"
    | 3 => "BX"
    | 4 => "SP"
    | 5 => "BP"
    | 6 => "SI"
    | 7 => "DI"
    | _ => ""
  else
    match reg with
    | 0 => "AL"
    | 1 => "CL"
    | 2 => "DL"
    | 3 => "BL"
    | 4 => "AH"
    | 5 => "CH"
    | 6 => "DH"
    | 7 => "BH"
    | _ => ""

/-- Effective-address table under mode 00, from get_effective_address in the
    source.  Field 6 consumes two further bytes, combines them little-endian
    into an i16 (both bytes cast u8 as i16, then (hi << 8) | lo), and renders
    the signed value in brackets; `none` models the unwrap abort when the
    stream is too short. -/
def get_effective_address (r_m : Nat) (bytes : List Nat) : Option (String × List Nat) :=
  match r_m with
  | 0 => some ("[BX + SI]", bytes)
  | 1 => some ("[BX + DI]", bytes)
  | 2 => some ("[BP + SI]", bytes)
  | 3 => some ("[BP + DI]", bytes)
  | 4 => some ("[SI]", bytes)
  | 5 => some ("[DI]", bytes)
  | 6 =>
    match bytes with
    | disp_lo :: disp_hi :: rest =>
      let disp : Int := i16val (combine16 disp_hi disp_lo)
      some ("[" ++ toString disp ++ "]", rest)
    | _ => none
  | 7 => some ("[BX]", bytes)
  | _ => none

/-- Base-register expression table under the displacement modes, from
    get_disp_registers in the source. -/
def get_disp_registers (register_memory : Nat) : String :=
  match register_memory with
  | 0 => "BX + SI"
  | 1 => "BX + DI"
  | 2 => "BP + SI"
  | 3 => "BP + DI"
  | 4 => "SI"
  | 5 => "DI"
  | 6 => "BP"
  | 7 => "BX"
  | _ => ""

/-- Rendering of a base register with an 8-bit displacement, from
    get_disp_byte in the source: zero omits the offset, a positive value
    renders with a plus sign, a negative value renders with a minus sign and
    the negation of the value (which wraps at -128, see neg8). -/
def get_disp_byte (register : String) (displacement : Int) : String :=
  if displacement = 0 then "[" ++ register ++ "]"
  else if 0 < displacement then "[" ++ register ++ " + " ++ toString displacement ++ "]"
  else "[" ++ register ++ " - " ++ toString (neg8 displacement) ++ "]"

/-- Rendering of a base register with a 16-bit displacement, from
    get_disp_word in the source; the negation wraps at -32768, see neg16. -/
def get_disp_word (register : String) (displacement : Int) : String :=
  if displacement = 0 then "[" ++ register ++ "]"
  else if 0 < displacement then "[" ++ register ++ " + " ++ toString displacement ++ "]"
  else "[" ++ register ++ " - " ++ toString (neg16 displacement) ++ "]"

/-- Decoder of the register/memory to/from register family (first byte
    pattern 100010dw), from mov_reg_mem_to_from_reg in the source.  The
    result pairs the printed line with the unconsumed bytes; `none` models
    the unwrap abort on a truncated stream.  The direction bit selects the
    ordering of the printed pair (destination first). -/
def mov_reg_mem_to_from_reg (byte_one : Nat) (bytes : List Nat) : Option (String × List Nat) :=
  let destination_in_reg : Bool := byte_one &&& DBIT == DBIT
  let is_word : Bool := byte_one &&& WBIT == WBIT
  match bytes with
  | [] => none
  | byte_two :: rest =>
    let mode := (byte_two &&& MOD) >>> 6
    let register := (byte_two &&& REG) >>> 3
    let register_memory := byte_two &&& R_M
    let register_in_reg := get_reg register is_word
    match mode with
    | 0 =>
      match get_effective_address register_memory rest with
      | none => none
      | some (effective_address, rest) =>
        let ds := if destination_in_reg then (register_in_reg, effective_address)
                  else (effective_address, register_in_reg)
        some ("MOV " ++ ds.1 ++ ", " ++ ds.2, rest)
    | 1 =>
      match rest with
      | [] => none
      | d :: rest =>
        let disp : Int := i8val d
        let disp_registers := get_disp_registers register_memory
        let ds := if destination_in_reg then (register_in_reg, get_disp_byte disp_registers disp)
                  else (get_disp_byte disp_registers disp, register_in_reg)
        some ("MOV " ++ ds.1 ++ ", " ++ ds.2, rest)
    | 2 =>
      match rest with
      | disp_lo :: disp_hi :: rest =>
        let disp : Int := i16val (combine16 disp_hi disp_lo)
        let registers := get_disp_registers register_memory
        let ds := if destination_in_reg then (register_in_reg, get_disp_word registers disp)
                  else (get_disp_word registers disp, register_in_reg)
        some ("MOV " ++ ds.1 ++ ", " ++ ds.2, rest)
      | _ => none
    | 3 =>
      let register_in_r_m := get_reg register_memory is_word
      let ds := if destination_in_reg then (register_in_reg, register_in_r_m)
                else (register_in_r_m, register_in_reg)
      some ("MOV " ++ ds.1 ++ ", " ++ ds.2, rest)
    | _ => none

/-- Decoder of the immediate-to-register family (first byte pattern
    1011wreg), from mov_imm_to_reg in the source.  Note that the source
    stores the register text in its src variable and the immediate in its
    dst variable and prints dst first, so the immediate appears in the
    destination slot of the rendered line.  The immediate bytes are cast
    u8 as i16 (zero extension); with width=word the two bytes are combined
    as (hi << 8) | lo. -/
def mov_imm_to_reg (byte_one : Nat) (bytes : List Nat) : Option (String × List Nat) :=
  let reg := byte_one &&& 0x07
  let is_word : Bool := byte_one &&& 0x08 == 0x08
  let src := get_reg reg is_word
  if is_word then
    match bytes with
    | lo :: hi :: rest =>
      let dst : Int := i16val (combine16 hi lo)
      some ("MOV " ++ toString dst ++ ", " ++ src, rest)
    | _ => none
  else
    match bytes with
    | b :: rest =>
      let dst : Int := i16val b
      some ("MOV " ++ toString dst ++ ", " ++ src, rest)
    | [] => none

/-- Decoder of the immediate-to-register-or-memory family (first byte
    pattern 110001xw), from mov_imm_to_r_m in the source.  Under mode 00 the
    immediate data bytes are read before get_effective_address runs, so for
    the direct-address field 6 the data bytes are consumed ahead of the two
    address bytes.  Under mode 10 both displacement bytes are cast u8 as i8
    before widening, so the sign extension of the low byte bleeds into the
    high half of the OR.  Mode 11 is an unimplemented todo branch in the
    source, which aborts; it is `none` here. -/
def mov_imm_to_r_m (byte_one : Nat) (bytes : List Nat) : Option (String × List Nat) :=
  let is_word : Bool := byte_one &&& WBIT == WBIT
  match bytes with
  | [] => none
  | byte_two :: rest =>
    let mode := (byte_two &&& MOD) >>> 6
    let r_m := byte_two &&& R_M
    match mode with
    | 0 =>
      if is_word then
        match rest with
        | lo :: hi :: rest =>
          let src : Int := i16val (combine16 hi lo)
          match get_effective_address r_m rest with
          | none => none
          | some (dst, rest) => some ("MOV " ++ dst ++ ", WORD " ++ toString src, rest)
        | _ => none
      else
        match rest with
        | src :: rest =>
          match get_effective_address r_m rest with
          | none => none
          | some (dst, rest) => some ("MOV " ++ dst ++ ", BYTE " ++ toString src, rest)
        | [] => none
    | 1 =>
      match rest with
      | d :: rest =>
        let disp : Int := i8val d
        let disp_registers := get_disp_registers r_m
        let dst := get_disp_byte disp_registers disp
        if is_word then
          match rest with
          | data_lo :: data_hi :: rest =>
            let src : Int := i16val (combine16 data_hi data_lo)
            some ("MOV " ++ dst ++ ", WORD " ++ toString src, rest)
          | _ => none
        else
          match rest with
          | src :: rest => some ("MOV " ++ dst ++ ", BYTE " ++ toString src, rest)
          | [] => none
      | [] => none
    | 2 =>
      match rest with
      | disp_lo :: disp_hi :: rest =>
        let disp : Int := i16val (combine16 (signExt8 disp_hi) (signExt8 disp_lo))
        let disp_registers := get_disp_registers r_m
        let dst := get_disp_word disp_registers disp
        if is_word then
          match rest with
          | data_lo :: data_hi :: rest =>
            let src : Int := i16val (combine16 data_hi data_lo)
            some ("MOV " ++ dst ++ ", WORD " ++ toString src, rest)
          | _ => none
        else
          match rest with
          | src :: rest => some ("MOV " ++ dst ++ ", BYTE " ++ toString src, rest)
          | [] => none
      | _ => none
    | 3 => none
    | _ => none

/-- Families the driver dispatches to, plus the unsupported case. -/
inductive OpcodeClass where
  | regMemToFromReg : OpcodeClass
  | immToReg : OpcodeClass
  | immToRM : OpcodeClass
  | unsupported : OpcodeClass
deriving DecidableEq

/-- How a run of the program ends: normal completion, or an abnormal abort
    (a runtime abort in the Rust code, which prints a diagnostic on the
    error stream and terminates the process with a non-zero status). -/
inductive Outcome where
  | ok : Outcome
  | aborted : Outcome
deriving DecidableEq

/-- Classification of the first instruction byte, from the match on
    (byte_one & OPCODE) >> 2 in the main loop of the source: pattern 100010
    is the register/memory family, patterns 101100 through 101111 the
    immediate-to-register family, pattern 110001 the
    immediate-to-register-or-memory family, and everything else is the
    abort branch that reports an unsupported opcode. -/
def classify (byte_one : Nat) : OpcodeClass :=
  let opcode := (byte_one &&& OPCODE) >>> 2
  if opcode = 0x22 then OpcodeClass.regMemToFromReg
  else if 0x2C ≤ opcode ∧ opcode ≤ 0x2F then OpcodeClass.immToReg
  else if opcode = 0x31 then OpcodeClass.immToRM
  else OpcodeClass.unsupported

/-- One iteration of the decode loop after the first byte has been read:
    dispatch on the opcode class; the unsupported branch aborts at once,
    touching no further byte of the stream. -/
def decode_step (byte_one : Nat) (bytes : List Nat) : Option (String × List Nat) :=
  match classify byte_one with
  | OpcodeClass.regMemToFromReg => mov_reg_mem_to_from_reg byte_one bytes
  | OpcodeClass.immToReg => mov_imm_to_reg byte_one bytes
  | OpcodeClass.immToRM => mov_imm_to_r_m byte_one bytes
  | OpcodeClass.unsupported => none

/-- Decode loop of the source: read a byte, dispatch, print the line,
    continue on the unconsumed suffix; an empty stream ends the run
    normally.  Fuel bounds the recursion; every instruction consumes at
    least two bytes, so fuel equal to the stream length never runs out. -/
def decode_loop : Nat → List Nat → List String × Outcome
  | _, [] => ([], Outcome.ok)
  | 0, _ :: _ => ([], Outcome.aborted)
  | fuel + 1, byte_one :: rest =>
    match decode_step byte_one rest with
    | none => ([], Outcome.aborted)
    | some (line, rest) =>
      let r := decode_loop fuel rest
      (line :: r.1, r.2)

/-- Model of the main function.  The input is `none` when the file cannot
    be opened (the Rust code silently does nothing in that case and exits
    with status 0) and `some (path, bytes)` when it can, in which case the
    program prints a comment naming the file, the directive `bits 16`, and
    then the decoded lines.  The first component collects every line
    printed on standard output, in order; lines printed before an abort
    are kept. -/
def main (input : Option (String × List Nat)) : List String × Outcome :=
  match input with
  | none => ([], Outcome.ok)
  | some (path, bytes) =>
    let r := decode_loop bytes.length bytes
    (("; " ++ path) :: "bits 16" :: r.1, r.2)

/-- Little-endian combination lemma: for byte-sized inputs the modelled
    Rust expression (hi << 8) | lo is plain positional combination. -/
theorem combine16_eq (hi lo : Nat) (hhi : hi < 256) (hlo : lo < 256) :
    combine16 hi lo = 256 * hi + lo := by
  unfold combine16
  rw [Nat.shiftLeft_eq]
  have hpow : (2 : Nat) ^ 8 = 256 := by norm_num
  have hlt : hi * 2 ^ 8 < 65536 := by rw [hpow]; omega
  rw [Nat.mod_eq_of_lt hlt]
  have hor : (2 : Nat) ^ 8 * hi + lo = 2 ^ 8 * hi ||| lo :=
    Nat.mul_add_lt_is_or (by rw [hpow]; omega) hi
  rw [hpow] at hor
  rw [hpow, Nat.mul_comm hi 256]
  exact hor.symm

/-- C1.  The claim states that in the immediate-to-register family the
    register named by the low 3 bits of the first byte is the destination
    of the rendered line and the immediate is the source, so that
    B8 05 00 decodes to the line MOV AX, 5.  The code disagrees with its
    own layout comment: mov_imm_to_reg prints the immediate in the
    destination slot and the register in the source slot, so the run
    prints MOV 5, AX. -/
theorem C1_imm_to_reg_renders_immediate_first :
    main (some ("input", [0xB8, 0x05, 0x00])) =
      (["; input", "bits 16", "MOV 5, AX"], Outcome.ok) := by decide

/-- C2.  The claim states that every 16-bit displacement is the two
    consumed bytes combined little-endian as a signed 16-bit value, with
    lo equal to 0x80 and hi equal to 0x01 yielding +384 in both families.
    The register/memory family does compute +384, but the
    immediate-to-register-or-memory family casts both displacement bytes
    through i8 first, so the sign extension of the low byte 0x80 floods
    the high half of the OR and the displacement comes out as -128. -/
theorem C2_disp16_sign_extension_divergence :
    mov_reg_mem_to_from_reg 0x8B [0x80, 0x80, 0x01] =
      some ("MOV AX, [BX + SI + 384]", []) ∧
    mov_imm_to_r_m 0xC7 [0x80, 0x80, 0x01, 0x00, 0x00] =
      some ("MOV [BX + SI - 128], WORD 0", []) := by decide

/-- C3 counterexample.  The claim states that 8B 41 DB decodes to the
    line MOV AX, [BX + SI - 37]; it does not, because the
    register-or-memory field of byte 0x41 is 001, which selects BX + DI. -/
theorem C3_counterexample :
    main (some ("input", [0x8B, 0x41, 0xDB])) ≠
      (["; input", "bits 16", "MOV AX, [BX + SI - 37]"], Outcome.ok) := by decide

/-- C3 as amended.  Decoding 8B 41 DB produces exactly the line
    MOV AX, [BX + DI - 37]: mode is 8-bit displacement, byte 0xDB is -37
    signed, the register field selects AX as destination, and the
    register-or-memory field 001 selects the base expression BX + DI. -/
theorem C3_decode_8B_41_DB :
    main (some ("input", [0x8B, 0x41, 0xDB])) =
      (["; input", "bits 16", "MOV AX, [BX + DI - 37]"], Outcome.ok) := by decide

/-- C4 counterexample.  The claim states that the direct-address operand
    is rendered as the unsigned 16-bit value of the two bytes, never a
    negative literal even when the high byte is 0x80 or more.  For bytes
    lo 0x00 and hi 0x80 the unsigned value is 32768, yet the rendered
    operand is not the bracketed 32768 (it is the bracketed -32768). -/
theorem C4_counterexample :
    get_effective_address 6 [0x00, 0x80] ≠ some ("[32768]", []) := by decide

/-- C4 as amended.  Under addressing mode NoDisplacement with
    register-or-memory field 110, the two following bytes are combined
    little-endian and the operand is rendered as that 16-bit quantity
    interpreted as a SIGNED value in brackets (negative whenever the high
    byte is 0x80 or greater), never as a base-register expression; exactly
    those two bytes are consumed. -/
theorem C4_direct_address_signed (lo hi : Nat) (rest : List Nat)
    (hlo : lo < 256) (hhi : hi < 256) :
    get_effective_address 6 (lo :: hi :: rest) =
      some ("[" ++ toString (i16val (256 * hi + lo)) ++ "]", rest) := by
  show some ("[" ++ toString (i16val (combine16 hi lo)) ++ "]", rest) = _
  rw [combine16_eq hi lo hhi hlo]

/-- C4 witness: the amended statement applied at the bytes 0x00, 0x80. -/
theorem C4_direct_address_signed_witness :
    get_effective_address 6 [0x00, 0x80] = some ("[-32768]", []) :=
  (C4_direct_address_signed 0x00 0x80 [] (by decide) (by decide)).trans (by decide)

/-- C5 counterexample.  The claim states that a byte-width immediate is
    sign-extended for display, so the immediate byte 0xFF should render
    as -1.  In the immediate-to-register-or-memory family it renders as
    255 instead, so the output line is not MOV [BX], BYTE -1. -/
theorem C5_counterexample :
    mov_imm_to_r_m 0xC6 [0x07, 0xFF] ≠ some ("MOV [BX], BYTE -1", []) := by decide

/-- C5 as amended.  A byte-width immediate is kept unsigned for display
    in both families: the data byte renders as its plain unsigned decimal
    value (0xFF renders as 255, not -1).  In the immediate-to-register
    family the value additionally occupies the destination slot of the
    line, per the C1 divergence. -/
theorem C5_byte_immediate_unsigned (b : Nat) (rest : List Nat) (hb : b < 256) :
    mov_imm_to_reg 0xB0 (b :: rest) = some ("MOV " ++ toString b ++ ", AL", rest) ∧
    mov_imm_to_r_m 0xC6 (0x07 :: b :: rest) =
      some ("MOV [BX], BYTE " ++ toString b, rest) := by
  constructor
  · have hv : i16val b = (b : Int) := by unfold i16val; rw [if_pos (by omega)]
    show some ("MOV " ++ toString (i16val b) ++ ", " ++ "AL", rest) = _
    rw [hv, String.append_assoc]
    rfl
  · rfl

/-- C5 witness: the amended statement applied at the byte 0xFF. -/
theorem C5_byte_immediate_unsigned_witness :
    mov_imm_to_reg 0xB0 [0xFF] = some ("MOV 255, AL", []) ∧
    mov_imm_to_r_m 0xC6 [0x07, 0xFF] = some ("MOV [BX], BYTE 255", []) := by
  have h := C5_byte_immediate_unsigned 0xFF [] (by decide)
  exact ⟨h.1.trans (by decide), h.2.trans (by decide)⟩

/-- C6.  The claim states that a negative displacement always renders
    with a minus sign followed by its unsigned absolute magnitude, for
    every signed 8-bit displacement including -128 and every signed
    16-bit displacement including -32768.  At exactly those two minima
    the Rust negation overflows: a debug build aborts there, and a
    release build wraps, rendering the raw negative literal itself after
    the minus sign, as the model shows. -/
theorem C6_negation_overflow :
    mov_reg_mem_to_from_reg 0x8B [0x40, 0x80] =
      some ("MOV AX, [BX + SI - -128]", []) ∧
    mov_reg_mem_to_from_reg 0x8B [0x80, 0x00, 0x80] =
      some ("MOV AX, [BX + SI - -32768]", []) := by decide

/-- C7 counterexample.  The claim states that a truncated instruction
    produces a structured TruncatedInstruction error value while every
    decode step returns success-or-error instead of aborting.  The code
    has no error channel at all: on the lone byte 0x8B (a register/memory
    opcode with no secondary byte) the failed unwrap aborts the process,
    which the model records as the aborted outcome with no error value. -/
theorem C7_counterexample :
    main (some ("input", [0x8B])) = (["; input", "bits 16"], Outcome.aborted) := by decide

/-- C7 as amended.  When the input ends before a matched encoding has the
    bytes it requires, the decode step aborts (a failed unwrap, carrying
    no offset or byte-count data) rather than returning an error value;
    the driver stops at that instruction and emits no line for it, the
    process terminates abnormally with a diagnostic on the error stream
    and a non-zero status, and previously emitted lines are not
    retracted. -/
theorem C7_truncation_aborts (b : Nat) (bytes : List Nat) (fuel : Nat)
    (h : decode_step b bytes = none) :
    decode_loop (fuel + 1) (b :: bytes) = ([], Outcome.aborted) ∧
    (∀ a as line, decode_step a as = some (line, b :: bytes) →
      decode_loop (fuel + 2) (a :: as) = ([line], Outcome.aborted)) := by
  have h1 : decode_loop (fuel + 1) (b :: bytes) = ([], Outcome.aborted) := by
    unfold decode_loop
    rw [h]
  refine ⟨h1, ?_⟩
  intro a as line ha
  show decode_loop (fuel + 1 + 1) (a :: as) = ([line], Outcome.aborted)
  unfold decode_loop
  rw [ha]
  simp [h1]

/-- C7 witness: the amended statement applied at the one-byte stream 0x8B
    and at the three-byte stream 89 D9 8B, whose first instruction has
    already printed MOV CX, BX when the abort happens. -/
theorem C7_truncation_aborts_witness :
    decode_loop 1 [0x8B] = ([], Outcome.aborted) ∧
    decode_loop 2 [0x89, 0xD9, 0x8B] = (["MOV CX, BX"], Outcome.aborted) := by
  have h := C7_truncation_aborts 0x8B [] 0 (by decide)
  exact ⟨h.1, h.2 0x89 [0xD9, 0x8B] "MOV CX, BX" (by decide)⟩

/-- C8.  The claim states that in the immediate-to-register-or-memory
    family under NoDisplacement with field 110, the two absolute-address
    bytes are consumed before the immediate data.  The code consumes the
    immediate first: for C7 06 01 02 03 04 it takes 01 02 as the
    immediate (513) and then 03 04 as the address (1027), printing
    MOV [1027], WORD 513, where the claimed order would give address 513
    and immediate 1027. -/
theorem C8_immediate_before_address :
    mov_imm_to_r_m 0xC7 [0x06, 0x01, 0x02, 0x03, 0x04] =
      some ("MOV [1027], WORD 513", []) := by decide

set_option maxRecDepth 4000 in
/-- C9.  Classification of the first instruction byte depends only on its
    top six bits: pattern 100010 (0x22) selects the register/memory
    family, patterns 101100 through 101111 (0x2C to 0x2F) the
    immediate-to-register family, pattern 110001 (0x31) the
    immediate-to-register-or-memory family, and every other pattern is
    the unsupported-opcode abort, which inspects and consumes no further
    byte of the stream. -/
theorem C9_classifier_top_six_bits :
    (∀ b, b < 256 → classify b =
      (if b >>> 2 = 0x22 then OpcodeClass.regMemToFromReg
       else if 0x2C ≤ b >>> 2 ∧ b >>> 2 ≤ 0x2F then OpcodeClass.immToReg
       else if b >>> 2 = 0x31 then OpcodeClass.immToRM
       else OpcodeClass.unsupported)) ∧
    (∀ b bytes bytes', classify b = OpcodeClass.unsupported →
      decode_step b bytes = none ∧ decode_step b bytes = decode_step b bytes') := by
  refine ⟨by decide, ?_⟩
  intro b bytes bytes' h
  constructor
  · unfold decode_step
    rw [h]
  · unfold decode_step
    rw [h]

set_option maxRecDepth 4000 in
/-- C9 witness: the classifier statement applied at the byte 0xF4, whose
    top six bits 111101 match no family, with two different stream
    tails. -/
theorem C9_classifier_witness :
    classify 0xF4 = OpcodeClass.unsupported ∧ decode_step 0xF4 [0x01, 0x02] = none := by
  have h1 : classify 0xF4 = OpcodeClass.unsupported :=
    (C9_classifier_top_six_bits.1 0xF4 (by decide)).trans (by decide)
  exact ⟨h1, (C9_classifier_top_six_bits.2 0xF4 [0x01, 0x02] [] h1).1⟩

/-- C10.  When the input file cannot be opened the program prints nothing
    at all (no header comment, no bits directive, no decoded line, and no
    abort diagnostic) and ends normally with status 0; a successful run
    over an empty input differs from it only by the two header lines. -/
theorem C10_open_failure_silent :
    main none = ([], Outcome.ok) ∧
    ∀ path, main (some (path, [])) = (["; " ++ path, "bits 16"], Outcome.ok) :=
  ⟨rfl, fun _ => rfl⟩

end HW1
